import Mathlib

/-! The per-call processing contract of ev_sdk/src/ji.cpp

A shallow embedding of `processMat`, `ji_destroy_predictor` and `ji_calc_frame`
of `src/ev_sdk/src/ji.cpp`, with the process-wide `char *jsonResult` as explicit
state.

Conventions of the embedding

* A C string is a list of character codes; the string it denotes ends before
  the first `0`.  `strlen` and `strcpy` follow `<cstring>`.
* An allocation made by `new char[n]` is a `Buffer`: its identity (the serial
  number of the allocation) and its `n` bytes.  Two buffers are the same
  allocation when their identities agree.
* Pointers that may be `NULL` are `Option`s.
* Lengths are natural numbers: `int jsonSize` holds `strlen` exactly for every
  text shorter than `2^31 - 1` bytes, which is the range the model covers.
* The headers `ji.h`, `cJSON.h`, `SampleDetector.hpp` and OpenCV are not part
  of the translated file; what `ji.cpp` uses of them is either a parameter
  (`Externals`, `SampleDetector`) or modelled from the specification.
-/

set_option linter.unusedVariables false

namespace EvSdk

/-! ## Data model -/

/-- Modelled from the spec: the status codes of `ji.h` (absent), the integer
taxonomy `SUCCEEDED`, `FAILED`, `UNUSED`, `INVALID_PARAMS` of the boundary
surface; they are pairwise different codes. -/
inductive JISDK_RET where
  | SUCCEED
  | FAILED
  | UNUSED
  | INVALIDPARAMS
  deriving DecidableEq, Repr

/-- A C `float`, kept as its bit pattern; `ji.cpp` never inspects it. -/
structure float where
  bits : Nat
  deriving DecidableEq, Repr

/-- A C `double` as `cJSON_CreateNumber` receives it.  Both conversions that
occur in `ji.cpp` (`int` to `double`, `float` to `double`) are exact, so the
double is represented by the value it was converted from. -/
inductive double where
  | ofInt (i : Int)
  | ofFloat (f : float)
  deriving DecidableEq, Repr

/-- The `cv::Rect` of a detection: origin and size, `int` fields. -/
structure Rect where
  x : Int
  y : Int
  width : Int
  height : Int
  deriving DecidableEq, Repr

/-- The `SampleDetector::Object` fields read by `processMat`.  The label
`name` is a `std::string`: any characters, the character `0` included. -/
structure Object where
  rect : Rect
  prob : float
  name : String
  deriving DecidableEq, Repr

/-- Modelled from the spec: the cJSON tree of `cJSON.h` (absent), restricted to
the four node kinds `processMat` creates.  An object keeps its members, an
array its items, in insertion order. -/
inductive cJSON where
  | Number (valuedouble : double)
  | String (valuestring : String)
  | Array (items : List cJSON)
  | Object (members : List (String × cJSON))

/-- The `JI_CV_FRAME` of `ji.h`: the five fields `ji_calc_frame` reads and
writes.  `data` is the pixel pointer (`none` is `NULL`). -/
structure JI_CV_FRAME where
  rows : Int
  cols : Int
  type : Int
  data : Option Nat
  step : Int
  deriving DecidableEq, Repr

/-- The `JI_EVENT` of `ji.h`: the status code and the pointer to the result
text, a pointer being the identity of the allocation it points to. -/
structure JI_EVENT where
  code : Int
  json : Option Nat
  deriving DecidableEq, Repr

/-- The header of a two-dimensional `cv::Mat`. -/
structure Mat where
  rows : Int
  cols : Int
  type : Int
  data : Option Nat
  step : Int
  deriving DecidableEq, Repr

/-- One allocation of `new char[n]`: its identity and its `n` bytes. -/
structure Buffer where
  ident : Nat
  mem : List Nat
  deriving DecidableEq, Repr

/-- The process-wide state of `ji.cpp`: the global `char *jsonResult`, the
number of result-buffer allocations made so far (the identity the next
allocation gets) and the identities released so far. -/
structure Globals where
  jsonResult : Option Buffer
  allocs : Nat
  freed : List Nat
  deriving DecidableEq, Repr

/-- The state at program start: `char *jsonResult = nullptr`. -/
def Globals.init : Globals :=
  { jsonResult := none, allocs := 0, freed := [] }

/-- The detection capability behind a handle: `SampleDetector::PROCESS_OK` and
`processImage`, which returns its status and fills the detection list. -/
structure SampleDetector where
  PROCESS_OK : Int
  processImage : Mat → Int × List Object

/-- What `ji.cpp` takes from headers that are not translated: the event code
`JISDK_CODE_FAILED` of `ji.h`, the encoder `cJSON_Print`, the element size of
a pixel format and the address OpenCV gives the pixels of a copied matrix. -/
structure Externals where
  JISDK_CODE_FAILED : Int
  cJSON_Print : cJSON → List Nat
  elemSize : Int → Int
  copyData : Mat → Nat

/-! ## `<cstring>` -/

/-- The characters of a C string: everything before the first `0`. -/
def cstr (s : List Nat) : List Nat :=
  s.takeWhile (fun c => c != 0)

/-- The length of a C string, `strlen`. -/
def strlen (s : List Nat) : Nat :=
  (cstr s).length

/-- The memory of `dst` after `strcpy(dst, src)`: the characters of `src`, the
terminator, and the bytes of `dst` behind them untouched. -/
def strcpy (dst src : List Nat) : List Nat :=
  cstr src ++ 0 :: dst.drop (strlen src + 1)

/-! ## 32-bit `int` -/

/-- The value an `int` holds after an arithmetic result `z` (two's complement
wrap-around). -/
def toInt32 (z : Int) : Int :=
  (z + 2147483648) % 4294967296 - 2147483648

/-! ## OpenCV -/

/-- The matrix `cv::Mat(rows, cols, type, data, step)` built over user data.
The `type` of a valid frame is a pixel-format tag, which the matrix keeps. -/
def Mat.ofFrame (f : JI_CV_FRAME) : Mat :=
  { rows := f.rows, cols := f.cols, type := f.type, data := f.data, step := f.step }

/-- The default-constructed `cv::Mat`. -/
def Mat.default : Mat :=
  { rows := 0, cols := 0, type := 0, data := none, step := 0 }

/-- The test `cv::Mat::empty()`: no data or no elements. -/
def Mat.empty (m : Mat) : Bool :=
  m.data.isNone || m.rows * m.cols == 0

/-- The destination of `src.copyTo(dst)` for a non-empty source: same size and
type, freshly allocated continuous pixels. -/
def Mat.copyTo (ex : Externals) (src : Mat) : Mat :=
  { rows := src.rows, cols := src.cols, type := src.type,
    data := some (ex.copyData src), step := src.cols * ex.elemSize src.type }

/-! ## cJSON -/

/-- The empty object of `cJSON_CreateObject`. -/
def cJSON_CreateObject : cJSON := cJSON.Object []

/-- The empty array of `cJSON_CreateArray`. -/
def cJSON_CreateArray : cJSON := cJSON.Array []

/-- The number node of `cJSON_CreateNumber`. -/
def cJSON_CreateNumber (num : double) : cJSON := cJSON.Number num

/-- The C string `s.c_str()` of a `std::string` as a reader of `const char *`
sees it: the characters before the first character `0`. -/
def c_str (s : String) : String :=
  String.mk (s.data.takeWhile (fun c => c != Char.ofNat 0))

/-- The string node of `cJSON_CreateString`, given the C string it reads. -/
def cJSON_CreateString (s : String) : cJSON := cJSON.String s

/-- The object after `cJSON_AddItemToObject(object, key, item)`: the member is
appended. -/
def cJSON_AddItemToObject (object : cJSON) (key : String) (item : cJSON) : cJSON :=
  match object with
  | cJSON.Object members => cJSON.Object (members ++ [(key, item)])
  | other => other

/-- The array after `cJSON_AddItemToArray(array, item)`: the item is appended. -/
def cJSON_AddItemToArray (array : cJSON) (item : cJSON) : cJSON :=
  match array with
  | cJSON.Array items => cJSON.Array (items ++ [item])
  | other => other

/-! ## `processMat` -/

/-- The JSON object built for one detection (the loop body of `processMat`,
lines 55-67). -/
def odbObj (obj : Object) : cJSON :=
  let odbObj := cJSON_CreateObject
  let xmin := obj.rect.x
  let ymin := obj.rect.y
  let xmax := toInt32 (xmin + obj.rect.width)
  let ymax := toInt32 (ymin + obj.rect.height)
  let odbObj := cJSON_AddItemToObject odbObj "xmin" (cJSON_CreateNumber (double.ofInt xmin))
  let odbObj := cJSON_AddItemToObject odbObj "ymin" (cJSON_CreateNumber (double.ofInt ymin))
  let odbObj := cJSON_AddItemToObject odbObj "xmax" (cJSON_CreateNumber (double.ofInt xmax))
  let odbObj := cJSON_AddItemToObject odbObj "ymax" (cJSON_CreateNumber (double.ofInt ymax))
  let odbObj := cJSON_AddItemToObject odbObj "confidence" (cJSON_CreateNumber (double.ofFloat obj.prob))
  let odbObj := cJSON_AddItemToObject odbObj "name" (cJSON_CreateString (c_str obj.name))
  odbObj

/-- The tree handed to `cJSON_Print` (lines 52-69 of `processMat`): the loop
over `detectedObjects` appends one object per detection to the array, which
becomes the member `objects` of the root. -/
def rootObj (detectedObjects : List Object) : cJSON :=
  let rootObj := cJSON_CreateObject
  let pedestrianObj := cJSON_CreateArray
  let pedestrianObj :=
    detectedObjects.foldl (fun arr obj => cJSON_AddItemToArray arr (odbObj obj)) pedestrianObj
  cJSON_AddItemToObject rootObj "objects" pedestrianObj

/-- The statement `jsonResult = new char[n]`: a fresh allocation of `n` bytes.
Its bytes are indeterminate in C++; every one of them is overwritten by the
`strcpy` that follows before it is read. -/
def Globals.newJsonResult (g : Globals) (n : Nat) : Globals :=
  { g with jsonResult := some { ident := g.allocs, mem := List.replicate n 0 },
           allocs := g.allocs + 1 }

/-- The statement `free(jsonResult)`. -/
def Globals.freeJsonResult (g : Globals) (b : Buffer) : Globals :=
  { g with freed := b.ident :: g.freed }

/-- Lines 73-78 of `processMat`: allocate when there is no buffer, release and
allocate again when the held text is shorter than the new one, else keep. -/
def reserveJsonResult (g : Globals) (jsonSize : Nat) : Globals :=
  match g.jsonResult with
  | none => g.newJsonResult (jsonSize + 1)
  | some b =>
    if strlen b.mem < jsonSize then
      (g.freeJsonResult b).newJsonResult (jsonSize + 1)
    else g

/-- Lines 72-79 of `processMat`: the result buffer is made ready for
`jsonResultStr` and the text is copied into it. -/
def publishJsonResult (g : Globals) (jsonResultStr : List Nat) : Globals :=
  let jsonSize := strlen jsonResultStr
  let g := reserveJsonResult g jsonSize
  match g.jsonResult with
  | none => g
  | some b => { g with jsonResult := some { b with mem := strcpy b.mem jsonResultStr } }

/-- What `processMat` returns and leaves in its reference parameters and in
the global state. -/
structure MatResult where
  ret : JISDK_RET
  outFrame : Mat
  event : JI_EVENT
  globals : Globals

/-- The function `processMat` of `ji.cpp` (lines 33-89). -/
def processMat (ex : Externals) (detector : SampleDetector) (inFrame : Mat) (args : String)
    (outFrame : Mat) (event : JI_EVENT) (g : Globals) : MatResult :=
  if inFrame.empty then
    { ret := JISDK_RET.FAILED, outFrame := outFrame, event := event, globals := g }
  else
    let processRet := (detector.processImage inFrame).1
    let detectedObjects := (detector.processImage inFrame).2
    if processRet ≠ detector.PROCESS_OK then
      { ret := JISDK_RET.FAILED, outFrame := outFrame, event := event, globals := g }
    else
      let outFrame := Mat.copyTo ex inFrame
      let jsonResultStr := ex.cJSON_Print (rootObj detectedObjects)
      let g := publishJsonResult g jsonResultStr
      let event := { event with json := g.jsonResult.map Buffer.ident }
      { ret := JISDK_RET.SUCCEED, outFrame := outFrame, event := event, globals := g }

/-! ## `ji_destroy_predictor` and `ji_calc_frame` -/

/-- The function `ji_destroy_predictor` of `ji.cpp` (lines 108-119), as its
effect on the global state. -/
def ji_destroy_predictor (predictor : Option SampleDetector) (g : Globals) : Globals :=
  match predictor with
  | none => g
  | some detector =>
    match g.jsonResult with
    | some b => { g.freeJsonResult b with jsonResult := none }
    | none => g

/-- What `ji_calc_frame` returns and leaves in the caller's frame, in the
caller's event and in the global state. -/
structure FrameResult where
  ret : JISDK_RET
  outFrame : Option JI_CV_FRAME
  event : JI_EVENT
  globals : Globals

/-- The function `ji_calc_frame` of `ji.cpp` (lines 121-145).  The event is
dereferenced unconditionally by the code, so it is not optional here. -/
def ji_calc_frame (ex : Externals) (predictor : Option SampleDetector)
    (inFrame : Option JI_CV_FRAME) (args : String) (outFrame : Option JI_CV_FRAME)
    (event : JI_EVENT) (g : Globals) : FrameResult :=
  match predictor, inFrame with
  | some detector, some inFrame =>
    let inMat := Mat.ofFrame inFrame
    if inMat.empty then
      { ret := JISDK_RET.FAILED, outFrame := outFrame, event := event, globals := g }
    else
      let outMat := Mat.default
      let r := processMat ex detector inMat args outMat event g
      let outMat := r.outFrame
      let processRet := r.ret
      if processRet = JISDK_RET.SUCCEED then
        if r.event.code ≠ ex.JISDK_CODE_FAILED ∧ outMat.empty = false ∧ outFrame.isSome then
          { ret := processRet,
            outFrame := some { rows := outMat.rows, cols := outMat.cols, type := outMat.type,
                               data := outMat.data, step := outMat.step },
            event := r.event, globals := r.globals }
        else
          { ret := processRet, outFrame := outFrame, event := r.event, globals := r.globals }
      else
        { ret := processRet, outFrame := outFrame, event := r.event, globals := r.globals }
  | _, _ =>
    { ret := JISDK_RET.INVALIDPARAMS, outFrame := outFrame, event := event, globals := g }

/-! ## Call sequences -/

/-- One call of the host on the engine. -/
inductive Call where
  | calc_frame (predictor : Option SampleDetector) (inFrame : Option JI_CV_FRAME)
      (args : String) (outFrame : Option JI_CV_FRAME) (event : JI_EVENT)
  | destroy_predictor (predictor : Option SampleDetector)

/-- The global state after one call. -/
def Call.apply (ex : Externals) (g : Globals) : Call → Globals
  | Call.calc_frame predictor inFrame args outFrame event =>
    (ji_calc_frame ex predictor inFrame args outFrame event g).globals
  | Call.destroy_predictor predictor => ji_destroy_predictor predictor g

/-- The global state after a sequence of calls made from state `g`. -/
def run (ex : Externals) (calls : List Call) (g : Globals) : Globals :=
  calls.foldl (Call.apply ex) g

/-- The invariant of the result buffer: its identity is one already handed
out, and the text it holds ends inside the allocation. -/
def Globals.Inv (g : Globals) : Prop :=
  ∀ b, g.jsonResult = some b → b.ident < g.allocs ∧ strlen b.mem + 1 ≤ b.mem.length

/-! ## Sample collaborators

Concrete collaborators on which the definitions are evaluated. -/

/-- A sample encoder: brackets around one letter per entry of the `objects`
array, so one more detection makes the text one byte longer. -/
def sampleEncoder : cJSON → List Nat
  | cJSON.Object [(_, cJSON.Array items)] =>
    123 :: 91 :: (List.replicate items.length 111 ++ [93, 125])
  | _ => [123, 125]

/-- Sample externals: `JISDK_CODE_FAILED` is `-1`, one byte per pixel, copies
live at address `7`. -/
def sampleExternals : Externals :=
  { JISDK_CODE_FAILED := -1, cJSON_Print := sampleEncoder,
    elemSize := fun _ => 1, copyData := fun _ => 7 }

/-- A sample detection: origin (10,20), size (30,40). -/
def sampleObject : Object :=
  { rect := { x := 10, y := 20, width := 30, height := 40 }, prob := { bits := 1063675494 },
    name := "mask" }

/-- A detection whose label has the character `0` in the middle: the three
characters a, NUL, b. -/
def nulObject : Object :=
  { rect := { x := 10, y := 20, width := 30, height := 40 }, prob := { bits := 1063675494 },
    name := String.mk ['a', Char.ofNat 0, 'b'] }

/-- A detector that reports `nulObject` on every picture. -/
def nulDetector : SampleDetector :=
  { PROCESS_OK := 0, processImage := fun _ => (0, [nulObject]) }

/-- A sample detector: the picture at address `1` shows one object, the one at
address `2` two, the one at address `3` cannot be processed, any other none. -/
def sampleDetector : SampleDetector :=
  { PROCESS_OK := 0,
    processImage := fun m =>
      if m.data = some 1 then (0, [sampleObject])
      else if m.data = some 2 then (0, [sampleObject, sampleObject])
      else if m.data = some 3 then (1, [])
      else (0, []) }

/-- A 4 x 4 frame of type `0` whose pixels are at `addr`. -/
def sampleFrame (addr : Nat) : JI_CV_FRAME :=
  { rows := 4, cols := 4, type := 0, data := some addr, step := 4 }

/-- The caller's output frame before a call. -/
def blankFrame : JI_CV_FRAME :=
  { rows := 0, cols := 0, type := 0, data := none, step := 0 }

/-- The caller's event before a call, with status code `code`. -/
def sampleEvent (code : Int) : JI_EVENT :=
  { code := code, json := none }

/-- A call on the sample handle with the picture at `addr`, a non-null output
frame and an event whose status code is `code` on entry. -/
def sampleCall (addr : Nat) (code : Int) (g : Globals) : FrameResult :=
  ji_calc_frame sampleExternals (some sampleDetector) (some (sampleFrame addr)) ""
    (some blankFrame) (sampleEvent code) g

/-- The same call as an element of a call sequence (event code `0`). -/
def sampleCallOf (addr : Nat) : Call :=
  Call.calc_frame (some sampleDetector) (some (sampleFrame addr)) "" (some blankFrame)
    (sampleEvent 0)

end EvSdk

namespace EvSdk

/-- The serialized text of a call on handle `d` with input frame `f`: the
encoder applied to the tree built from the detections (lines 43 and 52-71). -/
def serializedText (ex : Externals) (d : SampleDetector) (f : JI_CV_FRAME) : List Nat :=
  ex.cJSON_Print (rootObj (d.processImage (Mat.ofFrame f)).2)

/-! ## Lemmas on C strings -/

theorem cstr_append_zero (s r : List Nat) : cstr (cstr s ++ 0 :: r) = cstr s := by
  induction s with
  | nil => simp [cstr]
  | cons a s ih =>
    by_cases ha : a = 0
    · subst ha
      simp [cstr]
    · have h1 : cstr (a :: s) = a :: cstr s := by simp [cstr, ha]
      rw [h1]
      have h2 : cstr (a :: (cstr s ++ 0 :: r)) = a :: cstr (cstr s ++ 0 :: r) := by
        simp [cstr, ha]
      simpa [h2] using ih

theorem cstr_strcpy (dst src : List Nat) : cstr (strcpy dst src) = cstr src := by
  unfold strcpy
  exact cstr_append_zero src _

theorem strlen_strcpy (dst src : List Nat) : strlen (strcpy dst src) = strlen src := by
  simp [strlen, cstr_strcpy]

theorem length_strcpy (dst src : List Nat) (h : strlen src + 1 ≤ dst.length) :
    (strcpy dst src).length = dst.length := by
  simp only [strcpy, strlen, List.length_append, List.length_cons, List.length_drop] at *
  omega

theorem take_strcpy (dst src : List Nat) :
    (strcpy dst src).take (strlen src + 1) = cstr src ++ [0] := by
  have h : strcpy dst src = (cstr src ++ [0]) ++ dst.drop (strlen src + 1) := by
    simp [strcpy]
  rw [h]
  have hl : (cstr src ++ [0]).length = strlen src + 1 := by simp [strlen]
  rw [← hl, List.take_left]

theorem strcpy_fresh (src : List Nat) :
    strcpy (List.replicate (strlen src + 1) 0) src = cstr src ++ [0] := by
  simp [strcpy]

/-! ## Lemmas on the result buffer -/

theorem publish_first (g : Globals) (s : List Nat) (h : g.jsonResult = none) :
    publishJsonResult g s =
      { jsonResult := some { ident := g.allocs, mem := cstr s ++ [0] },
        allocs := g.allocs + 1, freed := g.freed } := by
  simp [publishJsonResult, reserveJsonResult, h, Globals.newJsonResult, strcpy_fresh]

theorem publish_grow (g : Globals) (s : List Nat) (b : Buffer) (h : g.jsonResult = some b)
    (hlt : strlen b.mem < strlen s) :
    publishJsonResult g s =
      { jsonResult := some { ident := g.allocs, mem := cstr s ++ [0] },
        allocs := g.allocs + 1, freed := b.ident :: g.freed } := by
  simp [publishJsonResult, reserveJsonResult, h, hlt, Globals.newJsonResult,
    Globals.freeJsonResult, strcpy_fresh]

theorem publish_reuse (g : Globals) (s : List Nat) (b : Buffer) (h : g.jsonResult = some b)
    (hge : strlen s ≤ strlen b.mem) :
    publishJsonResult g s =
      { jsonResult := some { ident := b.ident, mem := strcpy b.mem s },
        allocs := g.allocs, freed := g.freed } := by
  have hnot : ¬ strlen b.mem < strlen s := by omega
  simp [publishJsonResult, reserveJsonResult, h, hnot]

theorem strlen_terminated (s : List Nat) : strlen (cstr s ++ [0]) = strlen s := by
  simp [strlen, cstr_append_zero]

theorem init_inv : Globals.init.Inv := by
  intro b hb
  simp [Globals.init] at hb

theorem publish_inv (g : Globals) (s : List Nat) (hg : g.Inv) : (publishJsonResult g s).Inv := by
  intro b hb
  cases hj : g.jsonResult with
  | none =>
    rw [publish_first g s hj] at hb ⊢
    simp only [Option.some.injEq] at hb
    subst hb
    refine ⟨Nat.lt_succ_self _, ?_⟩
    rw [strlen_terminated]
    simp [strlen]
  | some b0 =>
    have h0 := hg b0 hj
    by_cases hlt : strlen b0.mem < strlen s
    · rw [publish_grow g s b0 hj hlt] at hb ⊢
      simp only [Option.some.injEq] at hb
      subst hb
      refine ⟨Nat.lt_succ_self _, ?_⟩
      rw [strlen_terminated]
      simp [strlen]
    · have hge : strlen s ≤ strlen b0.mem := by omega
      rw [publish_reuse g s b0 hj hge] at hb ⊢
      simp only [Option.some.injEq] at hb
      subst hb
      have hfit : strlen s + 1 ≤ b0.mem.length := by omega
      simp only [strlen_strcpy, length_strcpy b0.mem s hfit]
      exact ⟨h0.1, hfit⟩

theorem destroy_inv (p : Option SampleDetector) (g : Globals) (hg : g.Inv) :
    (ji_destroy_predictor p g).Inv := by
  cases p with
  | none => simpa [ji_destroy_predictor] using hg
  | some d =>
    cases hj : g.jsonResult with
    | none =>
      have : ji_destroy_predictor (some d) g = g := by simp [ji_destroy_predictor, hj]
      rw [this]; exact hg
    | some b0 =>
      intro b hb
      simp [ji_destroy_predictor, hj, Globals.freeJsonResult] at hb

/-! ## Lemmas on `processMat` and `ji_calc_frame` -/

theorem processMat_ok (ex : Externals) (d : SampleDetector) (m : Mat) (args : String)
    (out : Mat) (e : JI_EVENT) (g : Globals) (hne : m.empty = false)
    (hok : (d.processImage m).1 = d.PROCESS_OK) :
    processMat ex d m args out e g =
      { ret := JISDK_RET.SUCCEED, outFrame := Mat.copyTo ex m,
        event := { e with json := (publishJsonResult g
          (ex.cJSON_Print (rootObj (d.processImage m).2))).jsonResult.map Buffer.ident },
        globals := publishJsonResult g (ex.cJSON_Print (rootObj (d.processImage m).2)) } := by
  simp [processMat, hne, hok]

theorem processMat_fail (ex : Externals) (d : SampleDetector) (m : Mat) (args : String)
    (out : Mat) (e : JI_EVENT) (g : Globals)
    (h : m.empty = true ∨ (d.processImage m).1 ≠ d.PROCESS_OK) :
    processMat ex d m args out e g =
      { ret := JISDK_RET.FAILED, outFrame := out, event := e, globals := g } := by
  unfold processMat
  by_cases hm : m.empty = true
  · simp [hm]
  · have hp : (d.processImage m).1 ≠ d.PROCESS_OK := by
      cases h with
      | inl h => exact absurd h hm
      | inr h => exact h
    simp [hm, hp]

theorem copyTo_empty (ex : Externals) (m : Mat) (hne : m.empty = false) :
    (Mat.copyTo ex m).empty = false := by
  simp [Mat.empty, Mat.copyTo] at *
  exact hne.2

/-- A call succeeds exactly when handle and frame are present, the image is
not empty and the detector reports `PROCESS_OK`. -/
theorem calc_succeed_iff (ex : Externals) (p : Option SampleDetector)
    (i : Option JI_CV_FRAME) (a : String) (o : Option JI_CV_FRAME) (e : JI_EVENT)
    (g : Globals) :
    (ji_calc_frame ex p i a o e g).ret = JISDK_RET.SUCCEED ↔
      ∃ d f, p = some d ∧ i = some f ∧ (Mat.ofFrame f).empty = false ∧
        (d.processImage (Mat.ofFrame f)).1 = d.PROCESS_OK := by
  cases p with
  | none => simp [ji_calc_frame]
  | some d =>
    cases i with
    | none => simp [ji_calc_frame]
    | some f =>
      by_cases hm : (Mat.ofFrame f).empty = true
      · simp [ji_calc_frame, hm]
      · have hm2 : (Mat.ofFrame f).empty = false := by simpa using hm
        by_cases hp : (d.processImage (Mat.ofFrame f)).1 = d.PROCESS_OK
        · simp only [ji_calc_frame, hm2, processMat_ok ex d _ a _ e g hm2 hp]
          simp [hp]
          split <;> simp [hm2]
        · simp only [ji_calc_frame, hm2, processMat_fail ex d _ a _ e g (Or.inr hp)]
          simp [hp]

/-- The global state and the event after a successful call. -/
theorem calc_succeed_state (ex : Externals) (d : SampleDetector) (f : JI_CV_FRAME)
    (a : String) (o : Option JI_CV_FRAME) (e : JI_EVENT) (g : Globals)
    (h : (ji_calc_frame ex (some d) (some f) a o e g).ret = JISDK_RET.SUCCEED) :
    (ji_calc_frame ex (some d) (some f) a o e g).globals
        = publishJsonResult g (serializedText ex d f) ∧
      (ji_calc_frame ex (some d) (some f) a o e g).event
        = { e with json :=
              (publishJsonResult g (serializedText ex d f)).jsonResult.map Buffer.ident } := by
  obtain ⟨d1, f1, hd, hf, hm, hp⟩ := (calc_succeed_iff ex _ _ a o e g).1 h
  simp only [Option.some.injEq] at hd hf
  subst hd hf
  simp only [ji_calc_frame, hm, processMat_ok ex d _ a _ e g hm hp, serializedText]
  simp
  split <;> simp

/-- A call that does not succeed changes nothing. -/
theorem calc_fail_state (ex : Externals) (p : Option SampleDetector)
    (i : Option JI_CV_FRAME) (a : String) (o : Option JI_CV_FRAME) (e : JI_EVENT)
    (g : Globals) (h : (ji_calc_frame ex p i a o e g).ret ≠ JISDK_RET.SUCCEED) :
    (ji_calc_frame ex p i a o e g).globals = g ∧ (ji_calc_frame ex p i a o e g).event = e ∧
      (ji_calc_frame ex p i a o e g).outFrame = o := by
  cases p with
  | none => simp [ji_calc_frame]
  | some d =>
    cases i with
    | none => simp [ji_calc_frame]
    | some f =>
      by_cases hm : (Mat.ofFrame f).empty = true
      · simp [ji_calc_frame, hm]
      · have hm2 : (Mat.ofFrame f).empty = false := by simpa using hm
        by_cases hp : (d.processImage (Mat.ofFrame f)).1 = d.PROCESS_OK
        · exact absurd ((calc_succeed_iff ex _ _ a o e g).2 ⟨d, f, rfl, rfl, hm2, hp⟩) h
        · simp only [ji_calc_frame, hm2, processMat_fail ex d _ a _ e g (Or.inr hp)]
          simp

theorem calc_inv (ex : Externals) (p : Option SampleDetector)
    (i : Option JI_CV_FRAME) (a : String) (o : Option JI_CV_FRAME) (e : JI_EVENT)
    (g : Globals) (hg : g.Inv) : (ji_calc_frame ex p i a o e g).globals.Inv := by
  by_cases h : (ji_calc_frame ex p i a o e g).ret = JISDK_RET.SUCCEED
  · obtain ⟨d, f, hd, hf, -, -⟩ := (calc_succeed_iff ex _ _ a o e g).1 h
    subst hd hf
    rw [(calc_succeed_state ex d f a o e g h).1]
    exact publish_inv g _ hg
  · rw [(calc_fail_state ex p i a o e g h).1]
    exact hg

theorem apply_inv (ex : Externals) (c : Call) (g : Globals) (hg : g.Inv) :
    (Call.apply ex g c).Inv := by
  cases c with
  | calc_frame p i a o e => exact calc_inv ex p i a o e g hg
  | destroy_predictor p => exact destroy_inv p g hg

theorem run_inv (ex : Externals) (calls : List Call) (g : Globals) (hg : g.Inv) :
    (run ex calls g).Inv := by
  induction calls generalizing g with
  | nil => simpa [run] using hg
  | cons c cs ih =>
    simp only [run, List.foldl_cons]
    exact ih _ (apply_inv ex c g hg)

/-- After a publish there is a buffer, and it holds the published text. -/
theorem publish_holds (g : Globals) (s : List Nat) :
    ∃ b, (publishJsonResult g s).jsonResult = some b ∧ cstr b.mem = cstr s ∧
      b.mem.take (strlen s + 1) = cstr s ++ [0] := by
  cases hj : g.jsonResult with
  | none =>
    rw [publish_first g s hj]
    exact ⟨_, rfl, by simp [cstr_append_zero], by simp [strlen]⟩
  | some b0 =>
    by_cases hlt : strlen b0.mem < strlen s
    · rw [publish_grow g s b0 hj hlt]
      exact ⟨_, rfl, by simp [cstr_append_zero], by simp [strlen]⟩
    · rw [publish_reuse g s b0 hj (by omega)]
      exact ⟨_, rfl, cstr_strcpy _ _, take_strcpy _ _⟩

theorem c_str_of_no_nul (s : String) (h : ∀ c ∈ s.data, c ≠ Char.ofNat 0) :
    c_str s = s := by
  have ht : s.data.takeWhile (fun c => c != Char.ofNat 0) = s.data := by
    rw [List.takeWhile_eq_self_iff]
    intro c hc
    simpa using h c hc
  unfold c_str
  rw [ht]

theorem toInt32_of_fits (z : Int) (h1 : -2147483648 ≤ z) (h2 : z < 2147483648) :
    toInt32 z = z := by
  unfold toInt32
  omega

theorem foldl_addItem (ds : List Object) (acc : List cJSON) :
    ds.foldl (fun arr obj => cJSON_AddItemToArray arr (odbObj obj)) (cJSON.Array acc)
      = cJSON.Array (acc ++ ds.map odbObj) := by
  induction ds generalizing acc with
  | nil => simp
  | cons x xs ih =>
    have hstep : cJSON_AddItemToArray (cJSON.Array acc) (odbObj x)
        = cJSON.Array (acc ++ [odbObj x]) := rfl
    rw [List.foldl_cons, hstep, ih]
    simp

theorem rootObj_eq (ds : List Object) :
    rootObj ds = cJSON.Object [("objects", cJSON.Array (ds.map odbObj))] := by
  unfold rootObj
  simp only [cJSON_CreateArray, foldl_addItem, cJSON_CreateObject, cJSON_AddItemToObject,
    List.nil_append]

theorem reserve_fits (g : Globals) (hg : g.Inv) (n : Nat) :
    ∃ b, (reserveJsonResult g n).jsonResult = some b ∧ n + 1 ≤ b.mem.length := by
  cases hj : g.jsonResult with
  | none =>
    exact ⟨_, by simp [reserveJsonResult, hj, Globals.newJsonResult]; rfl, by simp⟩
  | some b0 =>
    have h0 := hg b0 hj
    by_cases hlt : strlen b0.mem < n
    · exact ⟨_, by simp [reserveJsonResult, hj, hlt, Globals.newJsonResult]; rfl, by simp⟩
    · exact ⟨b0, by simp [reserveJsonResult, hj, hlt], by omega⟩

/-- The event's status code is never written by a call. -/
theorem calc_event_code (ex : Externals) (p : Option SampleDetector)
    (i : Option JI_CV_FRAME) (a : String) (o : Option JI_CV_FRAME) (e : JI_EVENT)
    (g : Globals) : (ji_calc_frame ex p i a o e g).event.code = e.code := by
  by_cases h : (ji_calc_frame ex p i a o e g).ret = JISDK_RET.SUCCEED
  · obtain ⟨d, f, hd, hf, -, -⟩ := (calc_succeed_iff ex p i a o e g).1 h
    subst hd hf
    rw [(calc_succeed_state ex d f a o e g h).2]
  · rw [(calc_fail_state ex p i a o e g h).2.1]

/-! ## The claims -/

/-- C3: after every call that returns SUCCEED, from any state of the result
buffer (absent, too short or long enough), the buffer starts with the
serialized text of this call followed by the terminator, so the C string it
holds is that text, and the event's text pointer is the buffer. -/
theorem c3_buffer_holds_text_and_event_points_to_it (ex : Externals)
    (p : Option SampleDetector) (i : Option JI_CV_FRAME) (a : String)
    (o : Option JI_CV_FRAME) (e : JI_EVENT) (g : Globals)
    (h : (ji_calc_frame ex p i a o e g).ret = JISDK_RET.SUCCEED) :
    ∃ d f b, p = some d ∧ i = some f ∧
      (ji_calc_frame ex p i a o e g).globals.jsonResult = some b ∧
      b.mem.take (strlen (serializedText ex d f) + 1) = cstr (serializedText ex d f) ++ [0] ∧
      cstr b.mem = cstr (serializedText ex d f) ∧
      (ji_calc_frame ex p i a o e g).event.json = some b.ident := by
  obtain ⟨d, f, hd, hf, -, -⟩ := (calc_succeed_iff ex p i a o e g).1 h
  subst hd hf
  obtain ⟨hg, he⟩ := calc_succeed_state ex d f a o e g h
  obtain ⟨b, hb, hc, ht⟩ := publish_holds g (serializedText ex d f)
  refine ⟨d, f, b, rfl, rfl, by rw [hg, hb], ht, hc, ?_⟩
  rw [he, hb]
  rfl

/-- C3 at a concrete input, one per branch: first allocation, in-place reuse
and reallocation. -/
theorem c3_buffer_holds_text_and_event_points_to_it_witness :
    (sampleCall 1 0 Globals.init).ret = JISDK_RET.SUCCEED ∧
    (∃ d f b, some sampleDetector = some d ∧ some (sampleFrame 1) = some f ∧
      (sampleCall 1 0 Globals.init).globals.jsonResult = some b ∧
      b.mem.take (strlen (serializedText sampleExternals d f) + 1)
        = cstr (serializedText sampleExternals d f) ++ [0] ∧
      cstr b.mem = cstr (serializedText sampleExternals d f) ∧
      (sampleCall 1 0 Globals.init).event.json = some b.ident) ∧
    (sampleCall 4 0 (sampleCall 1 0 Globals.init).globals).globals.jsonResult
      = some { ident := 0, mem := [123, 91, 93, 125, 0, 0] } ∧
    (sampleCall 2 0 (sampleCall 1 0 Globals.init).globals).globals.jsonResult
      = some { ident := 1, mem := [123, 91, 111, 111, 93, 125, 0] } :=
  ⟨by decide,
   c3_buffer_holds_text_and_event_points_to_it sampleExternals (some sampleDetector)
     (some (sampleFrame 1)) "" (some blankFrame) (sampleEvent 0) Globals.init (by decide),
   by decide, by decide⟩

/-- C4 as stated fails: for a detection whose label is the three characters
a, NUL, b, processMat returns SUCCEED and the entry handed to the encoder has
the name a, the label up to its first NUL, which is not the label. -/
theorem c4_name_cut_at_nul_counterexample :
    (Mat.ofFrame (sampleFrame 1)).empty = false ∧
    nulDetector.processImage (Mat.ofFrame (sampleFrame 1))
      = (nulDetector.PROCESS_OK, [nulObject]) ∧
    (processMat sampleExternals nulDetector (Mat.ofFrame (sampleFrame 1)) "" Mat.default
      (sampleEvent 0) Globals.init).ret = JISDK_RET.SUCCEED ∧
    (processMat sampleExternals nulDetector (Mat.ofFrame (sampleFrame 1)) "" Mat.default
      (sampleEvent 0) Globals.init).globals
      = publishJsonResult Globals.init (sampleExternals.cJSON_Print (rootObj [nulObject])) ∧
    rootObj [nulObject] = cJSON.Object [("objects", cJSON.Array [
      cJSON.Object
        [("xmin", cJSON.Number (double.ofInt 10)),
         ("ymin", cJSON.Number (double.ofInt 20)),
         ("xmax", cJSON.Number (double.ofInt 40)),
         ("ymax", cJSON.Number (double.ofInt 60)),
         ("confidence", cJSON.Number (double.ofFloat { bits := 1063675494 })),
         ("name", cJSON.String "a")]])] ∧
    nulObject.name ≠ "a" ∧ nulObject.name.length = 3 :=
  ⟨by decide, rfl, by decide, rfl, rfl, by decide, by decide⟩

/-- C4 (amended): on a non-empty image for which the detector returns
PROCESS_OK with the list ds, all box sums fitting in int, processMat returns
SUCCEED, and the tree it hands to the encoder has one member objects, an array
with one entry per detection in the order of ds, each entry being xmin = x,
ymin = y, xmax = x + width, ymax = y + height, confidence = prob, and name =
the label up to its first NUL character, which is the label itself for every
label without a NUL character. -/
theorem c4_objects_mirror_detections (ex : Externals) (d : SampleDetector) (inFrame : Mat)
    (args : String) (outFrame : Mat) (event : JI_EVENT) (g : Globals) (ds : List Object)
    (hne : inFrame.empty = false)
    (hok : d.processImage inFrame = (d.PROCESS_OK, ds))
    (hfit : ∀ obj ∈ ds,
      (-2147483648 ≤ obj.rect.x + obj.rect.width ∧ obj.rect.x + obj.rect.width < 2147483648) ∧
      (-2147483648 ≤ obj.rect.y + obj.rect.height ∧
        obj.rect.y + obj.rect.height < 2147483648)) :
    (processMat ex d inFrame args outFrame event g).ret = JISDK_RET.SUCCEED ∧
    (processMat ex d inFrame args outFrame event g).globals
      = publishJsonResult g (ex.cJSON_Print (rootObj ds)) ∧
    rootObj ds = cJSON.Object [("objects", cJSON.Array (ds.map fun obj =>
      cJSON.Object
        [("xmin", cJSON.Number (double.ofInt obj.rect.x)),
         ("ymin", cJSON.Number (double.ofInt obj.rect.y)),
         ("xmax", cJSON.Number (double.ofInt (obj.rect.x + obj.rect.width))),
         ("ymax", cJSON.Number (double.ofInt (obj.rect.y + obj.rect.height))),
         ("confidence", cJSON.Number (double.ofFloat obj.prob)),
         ("name", cJSON.String (c_str obj.name))]))] ∧
    (∀ obj ∈ ds, (∀ c ∈ obj.name.data, c ≠ Char.ofNat 0) → c_str obj.name = obj.name) := by
  have hp : (d.processImage inFrame).1 = d.PROCESS_OK := by rw [hok]
  have hd : (d.processImage inFrame).2 = ds := by rw [hok]
  rw [processMat_ok ex d inFrame args outFrame event g hne hp, hd]
  refine ⟨rfl, rfl, ?_, ?_⟩
  · rw [rootObj_eq]
    congr 4
    apply List.map_congr_left
    intro obj hobj
    obtain ⟨⟨hx1, hx2⟩, hy1, hy2⟩ := hfit obj hobj
    simp [odbObj, cJSON_CreateObject, cJSON_AddItemToObject, cJSON_CreateNumber,
      cJSON_CreateString, toInt32_of_fits _ hx1 hx2, toInt32_of_fits _ hy1 hy2]
  · intro obj _ hnul
    exact c_str_of_no_nul obj.name hnul

/-- C4 (amended) at the two inputs of the specification: one detection with
origin (10,20), size (30,40) and label mask gives xmin=10, ymin=20, xmax=40,
ymax=60 and name mask, and no detection gives an empty objects list; both
calls return SUCCEED. -/
theorem c4_objects_mirror_detections_witness :
    (processMat sampleExternals sampleDetector (Mat.ofFrame (sampleFrame 1)) "" Mat.default
      (sampleEvent 0) Globals.init).ret = JISDK_RET.SUCCEED ∧
    rootObj [sampleObject] = cJSON.Object [("objects", cJSON.Array [
      cJSON.Object
        [("xmin", cJSON.Number (double.ofInt 10)),
         ("ymin", cJSON.Number (double.ofInt 20)),
         ("xmax", cJSON.Number (double.ofInt 40)),
         ("ymax", cJSON.Number (double.ofInt 60)),
         ("confidence", cJSON.Number (double.ofFloat { bits := 1063675494 })),
         ("name", cJSON.String "mask")]])] ∧
    c_str sampleObject.name = sampleObject.name ∧
    (processMat sampleExternals sampleDetector (Mat.ofFrame (sampleFrame 4)) "" Mat.default
      (sampleEvent 0) Globals.init).ret = JISDK_RET.SUCCEED ∧
    rootObj [] = cJSON.Object [("objects", cJSON.Array [])] :=
  ⟨(c4_objects_mirror_detections sampleExternals sampleDetector (Mat.ofFrame (sampleFrame 1))
      "" Mat.default (sampleEvent 0) Globals.init [sampleObject] (by decide) (by decide)
      (by decide)).1,
   (c4_objects_mirror_detections sampleExternals sampleDetector (Mat.ofFrame (sampleFrame 1))
      "" Mat.default (sampleEvent 0) Globals.init [sampleObject] (by decide) (by decide)
      (by decide)).2.2.1,
   (c4_objects_mirror_detections sampleExternals sampleDetector (Mat.ofFrame (sampleFrame 1))
      "" Mat.default (sampleEvent 0) Globals.init [sampleObject] (by decide) (by decide)
      (by decide)).2.2.2 sampleObject (by decide) (by decide),
   (c4_objects_mirror_detections sampleExternals sampleDetector (Mat.ofFrame (sampleFrame 4))
      "" Mat.default (sampleEvent 0) Globals.init [] (by decide) (by decide)
      (by decide)).1,
   (c4_objects_mirror_detections sampleExternals sampleDetector (Mat.ofFrame (sampleFrame 4))
      "" Mat.default (sampleEvent 0) Globals.init [] (by decide) (by decide)
      (by decide)).2.2.1⟩

/-- C5 as stated fails: with a non-null handle and a valid 4 x 4 image, a call
whose event holds JISDK_CODE_FAILED on entry returns SUCCEED and leaves the
caller's output frame (0 x 0) unwritten, so neither alternative of the claim
holds; and a call with a null output frame returns SUCCEED with no frame. -/
theorem c5_succeed_without_frame_counterexample :
    (sampleCall 1 (-1) Globals.init).ret = JISDK_RET.SUCCEED ∧
    (sampleCall 1 (-1) Globals.init).outFrame = some blankFrame ∧
    ¬ (((sampleCall 1 (-1) Globals.init).ret = JISDK_RET.SUCCEED ∧
          ∃ out, (sampleCall 1 (-1) Globals.init).outFrame = some out ∧
            out.rows = (sampleFrame 1).rows ∧ out.cols = (sampleFrame 1).cols ∧
            out.type = (sampleFrame 1).type) ∨
        ((sampleCall 1 (-1) Globals.init).ret = JISDK_RET.FAILED ∧
          (sampleCall 1 (-1) Globals.init).outFrame = some blankFrame)) ∧
    (ji_calc_frame sampleExternals (some sampleDetector) (some (sampleFrame 1)) "" none
      (sampleEvent 0) Globals.init).ret = JISDK_RET.SUCCEED ∧
    (ji_calc_frame sampleExternals (some sampleDetector) (some (sampleFrame 1)) "" none
      (sampleEvent 0) Globals.init).outFrame = none := by
  refine ⟨by decide, by decide, ?_, by decide, by decide⟩
  rintro (⟨-, out, hout, hrows, -, -⟩ | ⟨hret, -⟩)
  · have h0 : (sampleCall 1 (-1) Globals.init).outFrame = some blankFrame := by decide
    rw [h0] at hout
    simp only [Option.some.injEq] at hout
    subst hout
    revert hrows
    decide
  · revert hret
    decide

/-- C5 (amended): for every call with a non-null handle, a non-empty input
image, a non-null output frame and an event whose status code is not
JISDK_CODE_FAILED on entry, either the call returns SUCCEED and the output
frame's rows, cols and type are those of the input frame, or it returns FAILED
and the output frame is as it was; with a null output frame no frame is
written. -/
theorem c5_frame_written_when_gate_open (ex : Externals) (d : SampleDetector)
    (f : JI_CV_FRAME) (a : String) (out : JI_CV_FRAME) (e : JI_EVENT) (g : Globals)
    (hne : (Mat.ofFrame f).empty = false) (hcode : e.code ≠ ex.JISDK_CODE_FAILED) :
    (((ji_calc_frame ex (some d) (some f) a (some out) e g).ret = JISDK_RET.SUCCEED ∧
        ∃ o, (ji_calc_frame ex (some d) (some f) a (some out) e g).outFrame = some o ∧
          o.rows = f.rows ∧ o.cols = f.cols ∧ o.type = f.type) ∨
      ((ji_calc_frame ex (some d) (some f) a (some out) e g).ret = JISDK_RET.FAILED ∧
        (ji_calc_frame ex (some d) (some f) a (some out) e g).outFrame = some out)) ∧
    (ji_calc_frame ex (some d) (some f) a none e g).outFrame = none := by
  constructor
  · by_cases hp : (d.processImage (Mat.ofFrame f)).1 = d.PROCESS_OK
    · left
      have hc := copyTo_empty ex _ hne
      simp only [ji_calc_frame, hne, processMat_ok ex d _ a _ e g hne hp]
      simp [hcode, hc]
      simp [Mat.copyTo, Mat.ofFrame]
    · right
      simp only [ji_calc_frame, hne, processMat_fail ex d _ a _ e g (Or.inr hp)]
      simp
  · by_cases hp : (d.processImage (Mat.ofFrame f)).1 = d.PROCESS_OK
    · simp only [ji_calc_frame, hne, processMat_ok ex d _ a _ e g hne hp]
      simp
    · simp only [ji_calc_frame, hne, processMat_fail ex d _ a _ e g (Or.inr hp)]
      simp

/-- C5 (amended) at a concrete input: with event code 0 the 4 x 4 picture
gives a 4 x 4 output frame of type 0. -/
theorem c5_frame_written_when_gate_open_witness :
    (sampleCall 1 0 Globals.init).ret = JISDK_RET.SUCCEED ∧
    (sampleCall 1 0 Globals.init).outFrame
      = some { rows := 4, cols := 4, type := 0, data := some 7, step := 4 } ∧
    ((((sampleCall 1 0 Globals.init).ret = JISDK_RET.SUCCEED ∧
        ∃ o, (sampleCall 1 0 Globals.init).outFrame = some o ∧
          o.rows = (sampleFrame 1).rows ∧ o.cols = (sampleFrame 1).cols ∧
          o.type = (sampleFrame 1).type) ∨
      ((sampleCall 1 0 Globals.init).ret = JISDK_RET.FAILED ∧
        (sampleCall 1 0 Globals.init).outFrame = some blankFrame)) ∧
     (ji_calc_frame sampleExternals (some sampleDetector) (some (sampleFrame 1)) "" none
        (sampleEvent 0) Globals.init).outFrame = none) :=
  ⟨by decide, by decide,
   c5_frame_written_when_gate_open sampleExternals sampleDetector (sampleFrame 1) ""
     blankFrame (sampleEvent 0) Globals.init (by decide) (by decide)⟩

/-- C6 fails on the code: a call that returns SUCCEED with an event whose
status code is JISDK_CODE_FAILED on entry leaves that code in the event. -/
theorem c6_event_code_left_as_it_was :
    (sampleCall 1 (-1) Globals.init).ret = JISDK_RET.SUCCEED ∧
    (sampleCall 1 (-1) Globals.init).event.code = -1 ∧
    sampleExternals.JISDK_CODE_FAILED = -1 := by
  decide

/-- C7 as stated fails: a call with a null handle returns INVALIDPARAMS, which
is not FAILED. -/
theorem c7_null_handle_counterexample :
    (ji_calc_frame sampleExternals none (some (sampleFrame 1)) "" (some blankFrame)
      (sampleEvent 0) Globals.init).ret = JISDK_RET.INVALIDPARAMS ∧
    (ji_calc_frame sampleExternals none (some (sampleFrame 1)) "" (some blankFrame)
      (sampleEvent 0) Globals.init).ret ≠ JISDK_RET.FAILED := by
  decide

/-- C7 (amended): a call with a null handle or a null input frame returns
INVALIDPARAMS; a call with both present and an empty image returns FAILED. -/
theorem c7_null_is_invalidparams_empty_is_failed (ex : Externals)
    (p : Option SampleDetector) (i : Option JI_CV_FRAME) (a : String)
    (o : Option JI_CV_FRAME) (e : JI_EVENT) (g : Globals) :
    (p = none ∨ i = none → (ji_calc_frame ex p i a o e g).ret = JISDK_RET.INVALIDPARAMS) ∧
    (∀ d f, p = some d → i = some f → (Mat.ofFrame f).empty = true →
      (ji_calc_frame ex p i a o e g).ret = JISDK_RET.FAILED) := by
  constructor
  · rintro (h | h)
    · subst h
      simp [ji_calc_frame]
    · subst h
      cases p <;> simp [ji_calc_frame]
  · intro d f hd hf hm
    subst hd hf
    simp [ji_calc_frame, hm]

/-- C7 (amended) at concrete inputs: a null handle gives INVALIDPARAMS, a
frame without pixels gives FAILED. -/
theorem c7_null_is_invalidparams_empty_is_failed_witness :
    (ji_calc_frame sampleExternals none (some (sampleFrame 1)) "" (some blankFrame)
      (sampleEvent 0) Globals.init).ret = JISDK_RET.INVALIDPARAMS ∧
    (ji_calc_frame sampleExternals (some sampleDetector) (some blankFrame) ""
      (some blankFrame) (sampleEvent 0) Globals.init).ret = JISDK_RET.FAILED :=
  ⟨(c7_null_is_invalidparams_empty_is_failed sampleExternals none (some (sampleFrame 1)) ""
      (some blankFrame) (sampleEvent 0) Globals.init).1 (Or.inl rfl),
   (c7_null_is_invalidparams_empty_is_failed sampleExternals (some sampleDetector)
      (some blankFrame) "" (some blankFrame) (sampleEvent 0) Globals.init).2
      sampleDetector blankFrame rfl rfl (by decide)⟩

/-- C8: a call that returns a status other than SUCCEED leaves the global
state (the result buffer, its bytes and the allocation record), the caller's
event and the caller's output frame exactly as they were, so every later call
behaves as if the failed one had not been made. -/
theorem c8_failed_call_changes_nothing (ex : Externals) (p : Option SampleDetector)
    (i : Option JI_CV_FRAME) (a : String) (o : Option JI_CV_FRAME) (e : JI_EVENT)
    (g : Globals) (h : (ji_calc_frame ex p i a o e g).ret ≠ JISDK_RET.SUCCEED) :
    (ji_calc_frame ex p i a o e g).globals = g ∧
    (ji_calc_frame ex p i a o e g).event = e ∧
    (ji_calc_frame ex p i a o e g).outFrame = o ∧
    (∀ p2 i2 a2 o2 e2,
      ji_calc_frame ex p2 i2 a2 o2 e2 (ji_calc_frame ex p i a o e g).globals
        = ji_calc_frame ex p2 i2 a2 o2 e2 g) ∧
    (∀ p2, ji_destroy_predictor p2 (ji_calc_frame ex p i a o e g).globals
        = ji_destroy_predictor p2 g) := by
  obtain ⟨hg, he, ho⟩ := calc_fail_state ex p i a o e g h
  refine ⟨hg, he, ho, ?_, ?_⟩
  · intro p2 i2 a2 o2 e2
    rw [hg]
  · intro p2
    rw [hg]

/-- C8 at a concrete input: after a successful call, a call on a picture the
detector cannot process returns FAILED and changes nothing. -/
theorem c8_failed_call_changes_nothing_witness :
    (sampleCall 3 0 (sampleCall 1 0 Globals.init).globals).ret = JISDK_RET.FAILED ∧
    (sampleCall 3 0 (sampleCall 1 0 Globals.init).globals).globals
      = (sampleCall 1 0 Globals.init).globals ∧
    (sampleCall 3 0 (sampleCall 1 0 Globals.init).globals).event = sampleEvent 0 ∧
    (sampleCall 3 0 (sampleCall 1 0 Globals.init).globals).outFrame = some blankFrame := by
  obtain ⟨hg, he, ho, -, -⟩ :=
    c8_failed_call_changes_nothing sampleExternals (some sampleDetector)
      (some (sampleFrame 3)) "" (some blankFrame) (sampleEvent 0)
      (sampleCall 1 0 Globals.init).globals (by decide)
  exact ⟨by decide, hg, he, ho⟩

/-- C10: after every finite sequence of calls (process calls, successful or
not, and destroys) from the unallocated state, an allocated result buffer is
at least one byte larger than the text it holds; and for every text published
next, the buffer chosen for it has room for the text and its terminator, so
the copy stays inside the allocation and leaves its size unchanged. -/
theorem c10_copy_stays_inside_allocation (ex : Externals) (calls : List Call) :
    (∀ b, (run ex calls Globals.init).jsonResult = some b →
      strlen b.mem + 1 ≤ b.mem.length) ∧
    (∀ text : List Nat, ∃ b,
      (reserveJsonResult (run ex calls Globals.init) (strlen text)).jsonResult = some b ∧
      strlen text + 1 ≤ b.mem.length ∧
      (strcpy b.mem text).length = b.mem.length ∧
      (publishJsonResult (run ex calls Globals.init) text).jsonResult
        = some { ident := b.ident, mem := strcpy b.mem text }) := by
  have hinv := run_inv ex calls _ init_inv
  refine ⟨fun b hb => (hinv b hb).2, ?_⟩
  intro text
  obtain ⟨b, hb, hfit⟩ := reserve_fits _ hinv (strlen text)
  refine ⟨b, hb, hfit, length_strcpy _ _ hfit, ?_⟩
  simp [publishJsonResult, hb]

/-- C10 at a concrete sequence: five bytes published, four published in
place, destroy, six published; the buffer of seven bytes holds a text of
length six, and a text of length two published next fits in it. -/
theorem c10_copy_stays_inside_allocation_witness :
    run sampleExternals
        [sampleCallOf 1, sampleCallOf 4, Call.destroy_predictor (some sampleDetector),
         sampleCallOf 2] Globals.init
      = { jsonResult := some { ident := 1, mem := [123, 91, 111, 111, 93, 125, 0] },
          allocs := 2, freed := [0] } ∧
    strlen [123, 91, 111, 111, 93, 125, 0] + 1 ≤ 7 ∧
    ∃ b, (reserveJsonResult (run sampleExternals
        [sampleCallOf 1, sampleCallOf 4, Call.destroy_predictor (some sampleDetector),
         sampleCallOf 2] Globals.init) (strlen [123, 125])).jsonResult = some b ∧
      strlen [123, 125] + 1 ≤ b.mem.length := by
  obtain ⟨b, hb, hfit, -, -⟩ :=
    (c10_copy_stays_inside_allocation sampleExternals
      [sampleCallOf 1, sampleCallOf 4, Call.destroy_predictor (some sampleDetector),
       sampleCallOf 2]).2 [123, 125]
  exact ⟨by decide, by decide, b, hb, hfit⟩

end EvSdk
